import Mathlib

/-!
Shallow embedding of the sync/reconcile orchestration core of the
terraform-controller repository (packages `pkg/controller` and
`pkg/container`), together with theorems checking the specification's
claims against it.

Go `map[string]string` values are embedded as `Option (List (String × String))`
(a `nil` map is `none`); Go errors are `Option String` / `Except String _`
carrying the error string.  External collaborators (the Kubernetes API
server, the plugin registry, the config-map/secret/pod helpers that live
outside the embedded files) are passed in explicitly as data so that each
code path of the embedded functions is reachable.
-/

/-- `Error %s: %v` style status value (`map[string]interface{}` with keys
`state` and `message` in the source). -/
structure Status where
  state : String
  message : String
  deriving Repr, DecidableEq

/-- `pkg/controller`: `Scripts` struct. -/
structure Scripts where
  deploy : String
  destroy : String
  deriving Repr, DecidableEq

/-- `pkg/controller`: `GitRepo` struct. -/
structure GitRepo where
  url : String
  branch : String
  deriving Repr, DecidableEq

/-- `pkg/controller`: `ContainerRegistry` struct. -/
structure ContainerRegistry where
  imageName : String
  deriving Repr, DecidableEq

/-- `metav1.ObjectMeta`, restricted to the fields the embedded code reads. -/
structure ObjectMeta where
  name : String
  nspace : String
  deriving Repr, DecidableEq

/-- `pkg/controller`: `TerraformConfigSpec` struct. -/
structure TerraformConfigSpec where
  /-- the `variables` field of the source (`variables` is a reserved word
  in Lean 4) -/
  variablesMap : Option (List (String × String))
  backend : Option (List (String × String))
  scripts : Scripts
  gitRepo : GitRepo
  containerRegistry : ContainerRegistry
  deriving Repr, DecidableEq

/-- `pkg/controller`: `ParentResource` struct (status is the last reported
`Status`, if any). -/
structure ParentResource where
  apiVersion : String
  kind : String
  metadata : ObjectMeta
  spec : TerraformConfigSpec
  status : Option Status
  deriving Repr, DecidableEq

/-- `pkg/controller`: `SyncRequest` struct. -/
structure SyncRequest where
  parent : ParentResource
  finalizing : Bool
  deriving Repr, DecidableEq

/-- First-match lookup in an association list, the embedding of a Go map
read `m[k]`. -/
def alookup {β : Type} (m : List (String × β)) (k : String) : Option β :=
  match m with
  | [] => none
  | (k2, v) :: rest => if k2 = k then some v else alookup rest k

/-- A backend provider capability (`plugin.Provider`): `SetupBackend`
returns an error string on failure, `GetDockerfileAdditions` is pure. -/
structure Provider where
  setupBackendRun : List (String × String) → Option String
  dockerfileAdditions : String

/-- Modelled from the spec: `plugin.GetProvider` (the `plugin` package is
not under src/).  Per §4.3 the registry is a map from provider name to
capability, lookup is by the name string, and an unknown name yields an
error. -/
def GetProvider (registry : List (String × Provider)) (ptype : String) :
    Except String Provider :=
  match alookup registry ptype with
  | some p => Except.ok p
  | none => Except.error ("unsupported provider type: " ++ ptype)

/-- Observable side effects of one sync, in program order.  `statusWrite`
records a call to `updateStatus`; `providerLookup`/`backendSetup` record
the backend stage; `configMap`, `secret`, `build` and `run` record the
later pipeline stages; `sleepMinutes` records the retry delay. -/
inductive Effect where
  | providerLookup (pname : String)
  | backendSetup (pname : String)
  | configMap (resName : String)
  | secret (secretName : String)
  | build
  | run (script : String) (i : Nat)
  | sleepMinutes (n : Nat)
  | statusWrite (s : Status)
  deriving Repr, DecidableEq

/-- `controller.go`: `errorResponse` — `fmt.Sprintf("Error %s: %v", action, err)`. -/
def errorResponse (action : String) (err : String) : Status :=
  { state := "error", message := "Error " ++ action ++ ": " ++ err }

/-- Result triple of `setupBackend`: dockerfile additions, providerExists,
and the error (if any). -/
structure BackendResult where
  additions : String
  providerExists : Bool
  err : Option String
  deriving Repr

/-- `controller.go`: `setupBackend`.  Returns the result triple together
with the trace of provider-registry interactions it performed. -/
def setupBackend (registry : List (String × Provider))
    (backend : Option (List (String × String))) : BackendResult × List Effect :=
  match backend with
  | none => (⟨"", false, none⟩, [])
  | some b =>
    if b.length = 0 then (⟨"", false, none⟩, [])
    else
      match alookup b "provider" with
      | none => (⟨"", false, none⟩, [])
      | some ptype =>
        if ptype = "" then (⟨"", false, none⟩, [])
        else
          match GetProvider registry ptype with
          | Except.error e =>
              (⟨"", false, some ("error getting provider: " ++ e)⟩,
               [Effect.providerLookup ptype])
          | Except.ok provider =>
            match provider.setupBackendRun b with
            | some e =>
                (⟨"", false, some ("error setting up " ++ ptype ++ " backend: " ++ e)⟩,
                 [Effect.providerLookup ptype, Effect.backendSetup ptype])
            | none =>
                (⟨provider.dockerfileAdditions, true, none⟩,
                 [Effect.providerLookup ptype, Effect.backendSetup ptype])

/-- `controller.go`: `maxRetries`. -/
def maxRetries : Nat := 10

/-- The retry loop body of `runTerraform`: `att` is
`container.CreateRunPod` applied to the chosen script and the attempt
index; `prev` is the current value of the `terraformErr` local; the loop
breaks on the first `none` (success) and sleeps one minute after every
failure.  Returns the final `terraformErr` and the trace. -/
def runLoop (att : String → Nat → Option String) (script : String) :
    Nat → Nat → Option String → Option String × List Effect
  | _, 0, prev => (prev, [])
  | i, r + 1, _ =>
    match att script i with
    | none => (none, [Effect.run script i])
    | some e =>
      let rest := runLoop att script (i + 1) r (some e)
      (rest.1, Effect.run script i :: Effect.sleepMinutes 1 :: rest.2)

/-- `controller.go`: `runTerraform` — the retry loop followed by the
status construction. -/
def runTerraform (att : String → Nat → Option String) (script : String) :
    Status × List Effect :=
  let r := runLoop att script 0 maxRetries none
  (match r.1 with
   | none => { state := "Success", message := "Terraform applied successfully" }
   | some e => { state := "Failed", message := e }, r.2)

/-- The external collaborators of `handleSyncRequest`, passed as data:
the provider registry, the environment (`os.Getenv`), and the outcomes of
the `container` / `util` helpers that the controller calls. -/
structure Collab where
  registry : List (String × Provider)
  getEnv : String → String
  extractEnv : List (String × String) → List (String × String)
  /-- `container.CreateDockerfileConfigMap name ns additions providerExists`:
  the ConfigMap name on success, an error string otherwise. -/
  createDockerfileConfigMap : String → String → String → Bool → Except String String
  /-- `container.CreateDockerConfigSecret secretName ns encoded`: error, if any. -/
  createDockerConfigSecret : String → String → String → Option String
  /-- `buildAndTagImage` (via `container.CreateBuildPod`): takes the
  ConfigMap name and the secret name, yields the tagged image name. -/
  buildImage : String → String → Except String String
  /-- `container.CreateRunPod` outcome for (envVars, image, secret, script,
  attempt index). -/
  createRunPod : Option (List (String × String)) → String → String → String → Nat → Option String

/-- `controller.go`: `extractEnvVars` — nil in, nil out, else delegate to
`util.ExtractEnvVars`. -/
def extractEnvVars (c : Collab) (vars : Option (List (String × String))) :
    Option (List (String × String)) :=
  match vars with
  | none => none
  | some v => some (c.extractEnv v)

/-- The tail of `handleSyncRequest` after the script checks (backend
setup, ConfigMap, secret, build, run), with its trace.  Each error branch
builds the status with `errorResponse` and writes it once; the run branch
writes the `runTerraform` status once. -/
def handleSyncPipeline (c : Collab) (observed : SyncRequest) (scriptContent : String) :
    Status × List Effect :=
  let envVars := extractEnvVars c observed.parent.spec.variablesMap
  let name := observed.parent.metadata.name
  let nsp := observed.parent.metadata.nspace
  let sb := setupBackend c.registry observed.parent.spec.backend
  match sb.1.err with
  | some e =>
      let status := errorResponse "setting up backend" e
      (status, sb.2 ++ [Effect.statusWrite status])
  | none =>
    match c.createDockerfileConfigMap name nsp sb.1.additions sb.1.providerExists with
    | Except.error e =>
        let status := errorResponse "creating Dockerfile ConfigMap" e
        (status, sb.2 ++ [Effect.configMap name, Effect.statusWrite status])
    | Except.ok configMapName =>
      let encoded := c.getEnv "CONTAINER_REGISTRY_SECRET"
      let secretName := name ++ "-container-secret"
      match c.createDockerConfigSecret secretName nsp encoded with
      | some e =>
          let status := errorResponse "creating Docker config secret" e
          (status, sb.2 ++ [Effect.configMap name, Effect.secret secretName,
                            Effect.statusWrite status])
      | none =>
        match c.buildImage configMapName secretName with
        | Except.error e =>
            let status := errorResponse "creating build job" e
            (status, sb.2 ++ [Effect.configMap name, Effect.secret secretName,
                              Effect.build, Effect.statusWrite status])
        | Except.ok taggedImageName =>
            let rt := runTerraform
              (fun s i => c.createRunPod envVars taggedImageName secretName s i)
              scriptContent
            (rt.1, sb.2 ++ [Effect.configMap name, Effect.secret secretName,
                            Effect.build] ++ rt.2 ++ [Effect.statusWrite rt.1])

/-- The local variables of `handleSyncRequest` at the point of return:
the `observed` parameter and the `scriptContent` local.  The embedding
records every assignment the source makes to them. -/
structure Locals where
  observed : SyncRequest
  scriptContent : String
  deriving Repr, DecidableEq

/-- `controller.go`: `handleSyncRequest`, returning the status, the effect
trace (status writes included), and the final values of its locals. -/
def handleSyncRequestFull (c : Collab) (observed : SyncRequest) :
    Status × List Effect × Locals :=
  let scriptContent := observed.parent.spec.scripts.deploy
  if scriptContent = "" then
    let status := errorResponse "executing deploy script" "deploy script is missing"
    (status, [Effect.statusWrite status], ⟨observed, scriptContent⟩)
  else if observed.finalizing then
    let scriptContent := observed.parent.spec.scripts.destroy
    if scriptContent = "" then
      let status := errorResponse "executing destroy script" "destroy script is missing"
      (status, [Effect.statusWrite status], ⟨observed, scriptContent⟩)
    else
      let r := handleSyncPipeline c observed scriptContent
      (r.1, r.2, ⟨observed, scriptContent⟩)
  else
    let r := handleSyncPipeline c observed scriptContent
    (r.1, r.2, ⟨observed, scriptContent⟩)

/-- `handleSyncRequest` as observed by callers: status and effect trace. -/
def handleSyncRequest (c : Collab) (observed : SyncRequest) : Status × List Effect :=
  ((handleSyncRequestFull c observed).1, (handleSyncRequestFull c observed).2.1)

/-- The statuses written (calls to `updateStatus`) in a trace, in order. -/
def statusWrites (l : List Effect) : List Status :=
  l.filterMap fun e =>
    match e with
    | Effect.statusWrite s => some s
    | _ => none

/-- Is the effect a build or a run-pod submission? -/
def Effect.isBuildOrRun : Effect → Bool
  | Effect.build => true
  | Effect.run _ _ => true
  | _ => false

/-- Is the effect any pipeline stage at all (anything but a status write
or a sleep)? -/
def Effect.isStage : Effect → Bool
  | Effect.statusWrite _ => false
  | Effect.sleepMinutes _ => false
  | _ => true

/-! ## `pkg/container/kaniko.go` -/

/-- `corev1.VolumeMount`, restricted to the fields the source sets
(`ReadOnly` defaults to `false` when omitted, as in the Go literal). -/
structure VolumeMount where
  vname : String
  mountPath : String
  readOnly : Bool
  deriving Repr, DecidableEq

/-- The volume sources that `CreateBuildPod` uses. -/
inductive VolumeSource where
  | configMap (cmName : String) (items : List (String × String))
  | hostPath (path : String)
  | secret (secretName : String) (items : List (String × String))
  | pvc (claimName : String)
  deriving Repr, DecidableEq

/-- `corev1.Volume`. -/
structure Volume where
  vname : String
  source : VolumeSource
  deriving Repr, DecidableEq

/-- `corev1.EnvVar`. -/
structure EnvVar where
  ename : String
  value : String
  deriving Repr, DecidableEq

/-- `corev1.Container`, restricted to the fields the source sets. -/
structure KContainer where
  cname : String
  image : String
  args : List String
  env : List EnvVar
  volumeMounts : List VolumeMount
  deriving Repr, DecidableEq

/-- `corev1.RestartPolicy`. -/
inductive RestartPolicy where
  | always
  | onFailure
  | never
  deriving Repr, DecidableEq

/-- `corev1.PodSpec`, restricted to the fields the source sets. -/
structure PodSpec where
  containers : List KContainer
  restartPolicy : RestartPolicy
  volumes : List Volume
  deriving Repr, DecidableEq

/-- `corev1.Pod`: name plus spec. -/
structure Pod where
  pname : String
  spec : PodSpec
  deriving Repr, DecidableEq

/-- The pod literal built at `kaniko.go:62-152`, field by field. -/
def buildPodSpec (name configMapName imageName pvcName dockerSecretName repoDir : String) : Pod :=
  { pname := name ++ "-docker-build-pod"
    spec :=
      { containers :=
          [ { cname := "kaniko"
              image := "gcr.io/kaniko-project/executor:v1.23.1-debug"
              args := ["--dockerfile=/config/Dockerfile",
                       "--destination=" ++ imageName,
                       "--context=/tmp/" ++ name]
              env := [{ ename := "DOCKER_CONFIG", value := "/root/.docker" }]
              volumeMounts :=
                [ { vname := "dockerfile-config", mountPath := "/config", readOnly := false },
                  { vname := "workspace", mountPath := "/workspace", readOnly := false },
                  { vname := "docker-credentials", mountPath := "/root/.docker", readOnly := false },
                  { vname := "kaniko-logs", mountPath := "/logs", readOnly := false } ] } ]
        restartPolicy := RestartPolicy.never
        volumes :=
          [ { vname := "dockerfile-config"
              source := VolumeSource.configMap configMapName [("Dockerfile", "Dockerfile")] },
            { vname := "workspace", source := VolumeSource.hostPath repoDir },
            { vname := "docker-credentials"
              source := VolumeSource.secret dockerSecretName [(".dockerconfigjson", "config.json")] },
            { vname := "kaniko-logs", source := VolumeSource.pvc pvcName } ] } }

/-- A pod as stored by the API server: its spec, its finalizer list, and
whether a deletion has been requested and is pending (terminating). -/
structure ClusterPod where
  pod : Pod
  finalizers : List String
  deletionRequested : Bool
  deriving Repr, DecidableEq

/-- The slice of API-server state that `CreateBuildPod` touches: the pods
and the persistent volume claims of one namespace. -/
structure Cluster where
  pods : List ClusterPod
  pvcs : List String
  deriving Repr, DecidableEq

/-- API-server `Get` by pod name (first match). -/
def Cluster.findPod (cl : Cluster) (n : String) : Option ClusterPod :=
  cl.pods.find? fun p => p.pod.pname == n

/-- API-server semantics of the `{"metadata":{"finalizers":[]}}` merge
patch: clear the finalizer list of the named pod. -/
def Cluster.clearFinalizers (cl : Cluster) (n : String) : Cluster :=
  { cl with pods := cl.pods.map fun p =>
      if p.pod.pname == n then { p with finalizers := [] } else p }

/-- API-server semantics of `Delete`: a pod without finalizers is
removed; a pod that still carries finalizers stays, marked terminating. -/
def Cluster.removePod (cl : Cluster) (n : String) : Cluster :=
  { cl with pods := cl.pods.filterMap fun p =>
      if p.pod.pname == n then
        (if p.finalizers.isEmpty then none else some { p with deletionRequested := true })
      else some p }

/-- API-server semantics of `Create`: append a fresh pod (no finalizers,
not terminating). -/
def Cluster.addPod (cl : Cluster) (pod : Pod) : Cluster :=
  { cl with pods := cl.pods ++ [{ pod := pod, finalizers := [], deletionRequested := false }] }

/-- How many pods of the given name the cluster holds. -/
def Cluster.countPod (cl : Cluster) (n : String) : Nat :=
  (cl.pods.filter fun p => p.pod.pname == n).length

/-- Injected failures of the five API calls `CreateBuildPod` makes, so
that every error branch of the source is reachable.  `getErr` is a
non-NotFound lookup failure. -/
structure Faults where
  pvcErr : Option String
  getErr : Option String
  patchErr : Option String
  deleteErr : Option String
  createErr : Option String
  deriving Repr

/-- The fault-free API server. -/
def noFaults : Faults := ⟨none, none, none, none, none⟩

/-- The API calls `CreateBuildPod` issues, in program order. -/
inductive ApiCall where
  | ensurePVC (n : String)
  | getPod (n : String)
  | patchPod (n : String)
  | deletePod (n : String)
  | createPod (n : String)
  deriving Repr, DecidableEq

/-- Modelled from the spec: `EnsurePVC` (its definition is not under
src/) provisions the cache/log claim on demand — create-if-absent, never
re-created if present (§4.2). -/
def EnsurePVC (f : Faults) (cl : Cluster) (pvcName : String) : Except String Cluster :=
  match f.pvcErr with
  | some e => Except.error e
  | none =>
    if cl.pvcs.contains pvcName then Except.ok cl
    else Except.ok { cl with pvcs := cl.pvcs ++ [pvcName] }

/-- `kaniko.go`: `removeFinalizers` — the merge patch that empties the
finalizer list, propagating a patch failure. -/
def removeFinalizers (f : Faults) (cl : Cluster) (podName : String) :
    Except String Cluster :=
  match f.patchErr with
  | some e => Except.error e
  | none => Except.ok (cl.clearFinalizers podName)

/-- The `Create` call at `kaniko.go:155`, checked against the cluster:
creating a name that is still present (e.g. stuck terminating) fails. -/
def createPodStep (f : Faults) (cl : Cluster) (pod : Pod) : Except String Cluster :=
  match f.createErr with
  | some e => Except.error e
  | none =>
    match cl.findPod pod.pname with
    | some _ => Except.error ("pods \x22" ++ pod.pname ++ "\x22 already exists")
    | none => Except.ok (cl.addPod pod)

/-- The delete-then-create tail of `CreateBuildPod` (lines 49-162): issue
the delete and, without waiting for removal, immediately the create. -/
def deleteThenCreate (f : Faults) (cl : Cluster) (podName : String) (pod : Pod)
    (trace : List ApiCall) : Except String Unit × Cluster × List ApiCall :=
  match f.deleteErr with
  | some e => (Except.error e, cl, trace ++ [ApiCall.deletePod podName])
  | none =>
    let cl2 := cl.removePod podName
    match createPodStep f cl2 pod with
    | Except.error e =>
        (Except.error e, cl2, trace ++ [ApiCall.deletePod podName, ApiCall.createPod pod.pname])
    | Except.ok cl3 =>
        (Except.ok (), cl3, trace ++ [ApiCall.deletePod podName, ApiCall.createPod pod.pname])

/-- `kaniko.go`: `CreateBuildPod` — ensure the PVC, look up the existing
pod by its deterministic name, strip finalizers when present, delete it,
and immediately create the new pod. -/
def CreateBuildPod (f : Faults) (cl0 : Cluster)
    (name configMapName imageName pvcName dockerSecretName repoDir : String) :
    Except String Unit × Cluster × List ApiCall :=
  match EnsurePVC f cl0 pvcName with
  | Except.error e => (Except.error e, cl0, [ApiCall.ensurePVC pvcName])
  | Except.ok cl1 =>
    let podName := name ++ "-docker-build-pod"
    let pod := buildPodSpec name configMapName imageName pvcName dockerSecretName repoDir
    let pre := [ApiCall.ensurePVC pvcName, ApiCall.getPod podName]
    match f.getErr with
    | some e => (Except.error e, cl1, pre)
    | none =>
      match cl1.findPod podName with
      | some existing =>
        if existing.finalizers.length > 0 then
          match removeFinalizers f cl1 podName with
          | Except.error e => (Except.error e, cl1, pre ++ [ApiCall.patchPod podName])
          | Except.ok cl2 =>
              deleteThenCreate f cl2 podName pod (pre ++ [ApiCall.patchPod podName])
        else
          deleteThenCreate f cl1 podName pod pre
      | none =>
        match createPodStep f cl1 pod with
        | Except.error e => (Except.error e, cl1, pre ++ [ApiCall.createPod podName])
        | Except.ok cl2 => (Except.ok (), cl2, pre ++ [ApiCall.createPod podName])

/-! ## Helper lemmas -/

/-- The trace of `r` consecutive failing attempts starting at index `i`:
each submission is followed by the one-minute sleep. -/
def failTrace (script : String) : Nat → Nat → List Effect
  | _, 0 => []
  | i, r + 1 => Effect.run script i :: Effect.sleepMinutes 1 :: failTrace script (i + 1) r

theorem runLoop_step_fail (att : String → Nat → Option String) (script : String)
    (i r : Nat) (prev : Option String) (e0 : String) (h : att script i = some e0) :
    runLoop att script i (r + 1) prev =
      ((runLoop att script (i + 1) r (some e0)).1,
       Effect.run script i :: Effect.sleepMinutes 1 ::
         (runLoop att script (i + 1) r (some e0)).2) := by
  conv_lhs => rw [runLoop]
  rw [h]

theorem runLoop_step_ok (att : String → Nat → Option String) (script : String)
    (i r : Nat) (prev : Option String) (h : att script i = none) :
    runLoop att script i (r + 1) prev = (none, [Effect.run script i]) := by
  conv_lhs => rw [runLoop]
  rw [h]

theorem runLoop_all_fail (att : String → Nat → Option String) (script : String) :
    ∀ r i prev, 0 < r → (∀ j, j < r → att script (i + j) ≠ none) →
      ∃ e, att script (i + (r - 1)) = some e ∧
        runLoop att script i r prev = (some e, failTrace script i r)
  | 0, _, _, h0, _ => absurd h0 (by simp)
  | r + 1, i, prev, _, hfail => by
    obtain ⟨e0, he0⟩ : ∃ e0, att script i = some e0 := by
      have h := hfail 0 (Nat.succ_pos r)
      simpa [Option.ne_none_iff_exists'] using h
    match r with
    | 0 =>
      refine ⟨e0, by simpa using he0, ?_⟩
      simp [runLoop, he0, failTrace]
    | r' + 1 =>
      obtain ⟨e, he, hrl⟩ := runLoop_all_fail att script (r' + 1) (i + 1) (some e0)
        (Nat.succ_pos r') (fun j hj => by
          have h := hfail (j + 1) (by omega)
          have harith : i + (j + 1) = i + 1 + j := by omega
          rwa [harith] at h)
      refine ⟨e, ?_, ?_⟩
      · have harith : i + 1 + (r' + 1 - 1) = i + (r' + 1 + 1 - 1) := by omega
        rwa [harith] at he
      · rw [runLoop_step_fail att script i (r' + 1) prev e0 he0, hrl]
        simp [failTrace]

theorem runLoop_success (att : String → Nat → Option String) (script : String) :
    ∀ k r i prev, k < r → att script (i + k) = none →
      (∀ j, j < k → att script (i + j) ≠ none) →
      runLoop att script i r prev =
        (none, failTrace script i k ++ [Effect.run script (i + k)])
  | 0, r, i, prev, hk, hsucc, _ => by
    match r, hk with
    | r' + 1, _ =>
      have h0 : att script i = none := by simpa using hsucc
      rw [runLoop_step_ok att script i r' prev h0]
      simp [failTrace]
  | k + 1, r, i, prev, hk, hsucc, hfail => by
    match r, hk with
    | r' + 1, hk =>
      obtain ⟨e0, he0⟩ : ∃ e0, att script i = some e0 := by
        have h := hfail 0 (Nat.succ_pos k)
        simpa [Option.ne_none_iff_exists'] using h
      have hrl := runLoop_success att script k r' (i + 1) (some e0)
        (by omega)
        (by have harith : i + 1 + k = i + (k + 1) := by omega
            rwa [harith])
        (fun j hj => by
          have h := hfail (j + 1) (by omega)
          have harith : i + (j + 1) = i + 1 + j := by omega
          rwa [harith] at h)
      have harith : i + 1 + k = i + (k + 1) := by omega
      rw [runLoop_step_fail att script i r' prev e0 he0, hrl]
      simp [failTrace, harith]

theorem statusWrites_append (l1 l2 : List Effect) :
    statusWrites (l1 ++ l2) = statusWrites l1 ++ statusWrites l2 := by
  simp [statusWrites]

theorem statusWrites_runLoop (att : String → Nat → Option String) (script : String) :
    ∀ r i prev, statusWrites (runLoop att script i r prev).2 = []
  | 0, _, _ => by simp [runLoop, statusWrites]
  | r + 1, i, prev => by
    cases hatt : att script i with
    | none =>
      rw [runLoop_step_ok att script i r prev hatt]
      simp [statusWrites]
    | some e =>
      have ih := statusWrites_runLoop att script r (i + 1) (some e)
      rw [runLoop_step_fail att script i r prev e hatt]
      simp [statusWrites] at ih ⊢
      exact ih

theorem statusWrites_setupBackend (registry : List (String × Provider))
    (backend : Option (List (String × String))) :
    statusWrites (setupBackend registry backend).2 = [] := by
  unfold setupBackend
  split <;> try simp [statusWrites]
  split <;> try simp [statusWrites]
  split <;> try simp [statusWrites]
  split <;> try simp [statusWrites]
  split <;> try simp [statusWrites]
  split <;> simp [statusWrites]

/-! ## Claim C2 -/

/-- C2 (amended: the success message written by the code is
"Terraform applied successfully", not "applied successfully"):
`runTerraform` attempts the run-pod creation up to exactly 10 times with
a fixed 1-minute sleep after each failed attempt, stopping immediately on
the first success; if the attempts up to some `k < 10` fail and attempt
`k` succeeds the status is `{state: Success, message: "Terraform applied
successfully"}` and exactly attempts `0..k` were made; if all 10 attempts
fail the status is `{state: Failed}` with the error string of the last
(10th) attempt as the message and exactly attempts `0..9` were made. -/
theorem runTerraform_retry_policy (att : String → Nat → Option String) (script : String) :
    ((∀ i, i < 10 → att script i ≠ none) →
      ∃ e, att script 9 = some e ∧
        runTerraform att script =
          ({ state := "Failed", message := e }, failTrace script 0 10))
  ∧ (∀ k, k < 10 → att script k = none → (∀ i, i < k → att script i ≠ none) →
      runTerraform att script =
        ({ state := "Success", message := "Terraform applied successfully" },
         failTrace script 0 k ++ [Effect.run script k])) := by
  constructor
  · intro hall
    obtain ⟨e, he, hrl⟩ := runLoop_all_fail att script 10 0 none (by omega)
      (fun j hj => by simpa using hall j hj)
    refine ⟨e, by simpa using he, ?_⟩
    rw [runTerraform, maxRetries, hrl]
  · intro k hk hsucc hfail
    have hrl := runLoop_success att script k 10 0 none hk (by simpa using hsucc)
      (fun j hj => by simpa using hfail j hj)
    rw [runTerraform, maxRetries, hrl]
    simp

/-- Witness for `runTerraform_retry_policy`: attempts 0-8 fail, attempt 9
succeeds. -/
theorem runTerraform_retry_policy_witness :
    runTerraform (fun _ i => if i < 9 then some "pod create failed" else none) "sh deploy.sh" =
      ({ state := "Success", message := "Terraform applied successfully" },
       failTrace "sh deploy.sh" 0 9 ++ [Effect.run "sh deploy.sh" 9]) :=
  (runTerraform_retry_policy (fun _ i => if i < 9 then some "pod create failed" else none)
    "sh deploy.sh").2 9 (by decide) (by decide)
    (fun i hi => by
      have : i < 9 := hi
      simp [this])

/-- Counterexample to C2 as stated: on success the code's status message
is "Terraform applied successfully", not "applied successfully". -/
theorem runTerraform_message_counterexample :
    (runTerraform (fun _ _ => none) "sh deploy.sh").1 =
      { state := "Success", message := "Terraform applied successfully" }
    ∧ ({ state := "Success", message := "Terraform applied successfully" } : Status) ≠
        { state := "Success", message := "applied successfully" } := by
  exact ⟨rfl, by decide⟩

theorem statusWrites_runTerraform (att : String → Nat → Option String) (script : String) :
    statusWrites (runTerraform att script).2 = [] := by
  have h := statusWrites_runLoop att script maxRetries 0 none
  simpa [runTerraform] using h

theorem statusWrites_pipeline (c : Collab) (o : SyncRequest) (s : String) :
    statusWrites (handleSyncPipeline c o s).2 = [(handleSyncPipeline c o s).1] := by
  cases hsb : (setupBackend c.registry o.parent.spec.backend).1.err with
  | some e =>
    simp only [handleSyncPipeline, hsb]
    rw [statusWrites_append, statusWrites_setupBackend]
    simp [statusWrites]
  | none =>
    cases hcm : c.createDockerfileConfigMap o.parent.metadata.name o.parent.metadata.nspace
        (setupBackend c.registry o.parent.spec.backend).1.additions
        (setupBackend c.registry o.parent.spec.backend).1.providerExists with
    | error e =>
      simp only [handleSyncPipeline, hsb, hcm]
      rw [statusWrites_append, statusWrites_setupBackend]
      simp [statusWrites]
    | ok cmName =>
      cases hsec : c.createDockerConfigSecret (o.parent.metadata.name ++ "-container-secret")
          o.parent.metadata.nspace (c.getEnv "CONTAINER_REGISTRY_SECRET") with
      | some e =>
        simp only [handleSyncPipeline, hsb, hcm, hsec]
        rw [statusWrites_append, statusWrites_setupBackend]
        simp [statusWrites]
      | none =>
        cases hb : c.buildImage cmName (o.parent.metadata.name ++ "-container-secret") with
        | error e =>
          simp only [handleSyncPipeline, hsb, hcm, hsec, hb]
          rw [statusWrites_append, statusWrites_setupBackend]
          simp [statusWrites]
        | ok img =>
          simp only [handleSyncPipeline, hsb, hcm, hsec, hb]
          simp only [statusWrites_append, statusWrites_setupBackend,
                     statusWrites_runTerraform]
          simp [statusWrites]

/-! ## Claim C3 -/

/-- C3: every invocation of `handleSyncRequest`, on every path, performs
exactly one status write via `updateStatus`, and the status written is
the status `handleSyncRequest` returns. -/
theorem handleSync_exactly_one_status_write (c : Collab) (r : SyncRequest) :
    statusWrites (handleSyncRequest c r).2 = [(handleSyncRequest c r).1] := by
  by_cases hd : r.parent.spec.scripts.deploy = ""
  · simp [handleSyncRequest, handleSyncRequestFull, hd, statusWrites]
  · cases hf : r.finalizing with
    | false =>
      simpa [handleSyncRequest, handleSyncRequestFull, hd, hf] using
        statusWrites_pipeline c r r.parent.spec.scripts.deploy
    | true =>
      by_cases hds : r.parent.spec.scripts.destroy = ""
      · simp [handleSyncRequest, handleSyncRequestFull, hd, hf, hds, statusWrites]
      · simpa [handleSyncRequest, handleSyncRequestFull, hd, hf, hds] using
          statusWrites_pipeline c r r.parent.spec.scripts.destroy

/-! ## Substring containment and test fixtures -/

/-- Is `p` a prefix of the second list? -/
def prefOf : List Char → List Char → Bool
  | [], _ => true
  | _ :: _, [] => false
  | a :: as, b :: bs => a == b && prefOf as bs

/-- Is `p` a contiguous sublist of the second list? -/
def infOf (p : List Char) : List Char → Bool
  | [] => prefOf p []
  | b :: bs => prefOf p (b :: bs) || infOf p bs

/-- Does `s` contain `pat` as a substring? -/
def strContains (s pat : String) : Bool := infOf pat.data s.data

/-- A provider for the test registry. -/
def pAws : Provider :=
  { setupBackendRun := fun _ => none, dockerfileAdditions := "RUN aws-setup" }

/-- A concrete set of collaborators for evaluating the pipeline on test
inputs: a one-provider registry, all helper calls succeeding. -/
def c0 : Collab :=
  { registry := [("aws", pAws)]
    getEnv := fun _ => ""
    extractEnv := fun v => v
    createDockerfileConfigMap := fun name _ _ _ => Except.ok (name ++ "-dockerfile-cm")
    createDockerConfigSecret := fun _ _ _ => none
    buildImage := fun _ _ => Except.ok "registry.example.com/app:v1"
    createRunPod := fun _ _ _ _ _ => none }

/-- A concrete `SyncRequest` with the given scripts, backend and
finalizing flag. -/
def mkReq (deploy destroy : String) (backend : Option (List (String × String)))
    (fin : Bool) : SyncRequest :=
  { parent :=
      { apiVersion := "alustan.io/v1alpha1"
        kind := "Terraform"
        metadata := { name := "my-app", nspace := "default" }
        spec :=
          { variablesMap := none
            backend := backend
            scripts := { deploy := deploy, destroy := destroy }
            gitRepo := { url := "git@example.com:org/repo.git", branch := "main" }
            containerRegistry := { imageName := "registry.example.com/app" } }
        status := none }
    finalizing := fin }

/-! ## Trace classification lemmas -/

theorem setupBackend_trace_cases (reg : List (String × Provider))
    (backend : Option (List (String × String))) :
    (setupBackend reg backend).2 = [] ∨
    (∃ p, (setupBackend reg backend).2 = [Effect.providerLookup p]) ∨
    (∃ p, (setupBackend reg backend).2 =
      [Effect.providerLookup p, Effect.backendSetup p]) := by
  unfold setupBackend
  cases backend with
  | none => exact Or.inl rfl
  | some l =>
    by_cases hl : l.length = 0
    · simp [hl]
    · simp only [if_neg hl]
      cases hpt : alookup l "provider" with
      | none => simp
      | some pt =>
        by_cases hpt0 : pt = ""
        · simp [hpt0]
        · simp only [if_neg hpt0]
          cases hgp : GetProvider reg pt with
          | error e => simp
          | ok prov =>
            cases hsr : prov.setupBackendRun l with
            | some e => simp [hsr]
            | none => simp [hsr]

theorem runLoop_trace_mem (att : String → Nat → Option String) (script : String) :
    ∀ r i prev e, e ∈ (runLoop att script i r prev).2 →
      (∃ j, e = Effect.run script j) ∨ e = Effect.sleepMinutes 1
  | 0, i, prev, e, h => by
    rw [runLoop] at h
    simp at h
  | r + 1, i, prev, e, h => by
    cases hatt : att script i with
    | none =>
      rw [runLoop_step_ok att script i r prev hatt] at h
      simp at h
      exact Or.inl ⟨i, h⟩
    | some e0 =>
      rw [runLoop_step_fail att script i r prev e0 hatt] at h
      simp at h
      rcases h with h | h | h
      · exact Or.inl ⟨i, h⟩
      · exact Or.inr h
      · exact runLoop_trace_mem att script r (i + 1) (some e0) e h

theorem runTerraform_trace_mem (att : String → Nat → Option String) (script : String)
    (e : Effect) (h : e ∈ (runTerraform att script).2) :
    (∃ j, e = Effect.run script j) ∨ e = Effect.sleepMinutes 1 := by
  have h2 : e ∈ (runLoop att script 0 maxRetries none).2 := by
    simpa [runTerraform] using h
  exact runLoop_trace_mem att script maxRetries 0 none e h2

theorem setupBackend_no_run (reg : List (String × Provider))
    (b : Option (List (String × String))) (s2 : String) (i : Nat) :
    Effect.run s2 i ∉ (setupBackend reg b).2 := by
  rcases setupBackend_trace_cases reg b with h3 | ⟨p, h3⟩ | ⟨p, h3⟩ <;> rw [h3] <;> simp

theorem setupBackend_no_build (reg : List (String × Provider))
    (b : Option (List (String × String))) :
    Effect.build ∉ (setupBackend reg b).2 := by
  rcases setupBackend_trace_cases reg b with h3 | ⟨p, h3⟩ | ⟨p, h3⟩ <;> rw [h3] <;> simp

theorem runTerraform_run_script (att : String → Nat → Option String)
    (s s2 : String) (i : Nat) (h : Effect.run s2 i ∈ (runTerraform att s).2) : s2 = s := by
  rcases runTerraform_trace_mem att s _ h with ⟨j, hj⟩ | hj
  · injection hj with h1 _
  · exact absurd hj (by simp)

theorem pipeline_run_script (c : Collab) (o : SyncRequest) (s : String) :
    ∀ s2 i, Effect.run s2 i ∈ (handleSyncPipeline c o s).2 → s2 = s := by
  intro s2 i hmem
  cases hsb : (setupBackend c.registry o.parent.spec.backend).1.err with
  | some e =>
    simp only [handleSyncPipeline, hsb] at hmem
    simp [List.mem_append, setupBackend_no_run] at hmem
  | none =>
    cases hcm : c.createDockerfileConfigMap o.parent.metadata.name o.parent.metadata.nspace
        (setupBackend c.registry o.parent.spec.backend).1.additions
        (setupBackend c.registry o.parent.spec.backend).1.providerExists with
    | error e =>
      simp only [handleSyncPipeline, hsb, hcm] at hmem
      simp [List.mem_append, setupBackend_no_run] at hmem
    | ok cmName =>
      cases hsec : c.createDockerConfigSecret (o.parent.metadata.name ++ "-container-secret")
          o.parent.metadata.nspace (c.getEnv "CONTAINER_REGISTRY_SECRET") with
      | some e =>
        simp only [handleSyncPipeline, hsb, hcm, hsec] at hmem
        simp [List.mem_append, setupBackend_no_run] at hmem
      | none =>
        cases hb : c.buildImage cmName (o.parent.metadata.name ++ "-container-secret") with
        | error e =>
          simp only [handleSyncPipeline, hsb, hcm, hsec, hb] at hmem
          simp [List.mem_append, setupBackend_no_run] at hmem
        | ok img =>
          simp only [handleSyncPipeline, hsb, hcm, hsec, hb] at hmem
          simp [List.mem_append, setupBackend_no_run] at hmem
          exact runTerraform_run_script _ s s2 i hmem

/-! ## Claim C1 -/

/-- C1 (amended: the code checks `scripts.deploy` first, before the
`finalizing` branch): if `scripts.deploy` is empty, every sync — whether
finalizing or not — terminates with the status
`errorResponse "executing deploy script" "deploy script is missing"`
(state "error") having performed no backend, build or run stage, only the
one status write; otherwise, when `finalizing` is true and
`scripts.destroy` is empty, it terminates likewise with
`errorResponse "executing destroy script" "destroy script is missing"`;
otherwise any run-pod submission uses the selected script —
`scripts.destroy` when finalizing, `scripts.deploy` when not. -/
theorem script_selection_amended (c : Collab) (r : SyncRequest) :
    (r.parent.spec.scripts.deploy = "" →
      handleSyncRequest c r =
        (errorResponse "executing deploy script" "deploy script is missing",
         [Effect.statusWrite
            (errorResponse "executing deploy script" "deploy script is missing")]))
  ∧ (r.parent.spec.scripts.deploy ≠ "" → r.finalizing = true →
      r.parent.spec.scripts.destroy = "" →
      handleSyncRequest c r =
        (errorResponse "executing destroy script" "destroy script is missing",
         [Effect.statusWrite
            (errorResponse "executing destroy script" "destroy script is missing")]))
  ∧ (∀ s2 i, Effect.run s2 i ∈ (handleSyncRequest c r).2 →
      s2 = if r.finalizing then r.parent.spec.scripts.destroy
           else r.parent.spec.scripts.deploy) := by
  refine ⟨?_, ?_, ?_⟩
  · intro hd
    simp [handleSyncRequest, handleSyncRequestFull, hd]
  · intro hd hf hds
    simp [handleSyncRequest, handleSyncRequestFull, hd, hf, hds]
  · intro s2 i hmem
    by_cases hd : r.parent.spec.scripts.deploy = ""
    · simp [handleSyncRequest, handleSyncRequestFull, hd] at hmem
    · cases hf : r.finalizing with
      | false =>
        simp only [handleSyncRequest, handleSyncRequestFull, hd, hf] at hmem
        simp only [if_neg hd, Bool.false_eq_true, if_false] at hmem
        rw [if_neg (by simp [hf])]
        exact pipeline_run_script c r r.parent.spec.scripts.deploy s2 i hmem
      | true =>
        by_cases hds : r.parent.spec.scripts.destroy = ""
        · simp [handleSyncRequest, handleSyncRequestFull, hd, hf, hds] at hmem
        · simp only [handleSyncRequest, handleSyncRequestFull, hd, hf] at hmem
          simp only [if_neg hd, if_neg hds, if_true] at hmem
          rw [if_pos (by simp [hf])]
          exact pipeline_run_script c r r.parent.spec.scripts.destroy s2 i hmem

/-- Witness for `script_selection_amended`: a finalizing request with a
non-empty deploy script and an empty destroy script yields the
destroy-missing error with a single status write. -/
theorem script_selection_amended_witness :
    handleSyncRequest c0 (mkReq "sh deploy.sh" "" none true) =
      (errorResponse "executing destroy script" "destroy script is missing",
       [Effect.statusWrite
          (errorResponse "executing destroy script" "destroy script is missing")]) :=
  (script_selection_amended c0 (mkReq "sh deploy.sh" "" none true)).2.1
    (by decide) rfl rfl

/-- Counterexample to C1 as stated: for `finalizing = true` with both
scripts empty, the code fails on the deploy check first, so the message
names the deploy script and does not contain "destroy script is missing". -/
theorem script_selection_counterexample :
    (mkReq "" "" none true).finalizing = true ∧
    (mkReq "" "" none true).parent.spec.scripts.destroy = "" ∧
    (handleSyncRequest c0 (mkReq "" "" none true)).1 =
      { state := "error",
        message := "Error executing deploy script: deploy script is missing" } ∧
    strContains (handleSyncRequest c0 (mkReq "" "" none true)).1.message
      "destroy script is missing" = false := by
  refine ⟨rfl, rfl, rfl, ?_⟩
  decide

/-! ## Claim C5 -/

theorem setupBackend_unknown (reg : List (String × Provider))
    (b : List (String × String)) (p : String)
    (hp : alookup b "provider" = some p) (hpne : p ≠ "")
    (hu : alookup reg p = none) :
    setupBackend reg (some b) =
      ({ additions := "", providerExists := false,
         err := some ("error getting provider: " ++ ("unsupported provider type: " ++ p)) },
       [Effect.providerLookup p]) := by
  have hlen : ¬ b.length = 0 := by
    intro h0
    rw [List.length_eq_zero.mp h0] at hp
    simp [alookup] at hp
  simp only [setupBackend, if_neg hlen, hp, if_neg hpne, GetProvider, hu]

theorem pipeline_backend_err (c : Collab) (o : SyncRequest) (s msg : String)
    (hsb : (setupBackend c.registry o.parent.spec.backend).1.err = some msg) :
    handleSyncPipeline c o s =
      (errorResponse "setting up backend" msg,
       (setupBackend c.registry o.parent.spec.backend).2 ++
         [Effect.statusWrite (errorResponse "setting up backend" msg)]) := by
  simp only [handleSyncPipeline, hsb]

/-- C5: a backend map carrying a non-empty `provider` key whose value is
unknown to the registry makes the sync terminate with state "error", and
no build and no run stage executes. -/
theorem unknown_provider_terminal (c : Collab) (r : SyncRequest)
    (b : List (String × String)) (p : String)
    (hb : r.parent.spec.backend = some b)
    (hp : alookup b "provider" = some p) (hpne : p ≠ "")
    (hu : alookup c.registry p = none) :
    (handleSyncRequest c r).1.state = "error" ∧
    ∀ e ∈ (handleSyncRequest c r).2, e.isBuildOrRun = false := by
  have hsetup := setupBackend_unknown c.registry b p hp hpne hu
  have hsb : (setupBackend c.registry r.parent.spec.backend).1.err =
      some ("error getting provider: " ++ ("unsupported provider type: " ++ p)) := by
    rw [hb, hsetup]
  have htr : (setupBackend c.registry r.parent.spec.backend).2 =
      [Effect.providerLookup p] := by
    rw [hb, hsetup]
  by_cases hd : r.parent.spec.scripts.deploy = ""
  · refine ⟨?_, ?_⟩
    · simp [handleSyncRequest, handleSyncRequestFull, hd, errorResponse]
    · intro e he
      simp [handleSyncRequest, handleSyncRequestFull, hd] at he
      simp [he, Effect.isBuildOrRun]
  · have hpipe : ∀ s, handleSyncPipeline c r s =
        (errorResponse "setting up backend"
           ("error getting provider: " ++ ("unsupported provider type: " ++ p)),
         [Effect.providerLookup p] ++
           [Effect.statusWrite (errorResponse "setting up backend"
              ("error getting provider: " ++ ("unsupported provider type: " ++ p)))]) := by
      intro s
      rw [pipeline_backend_err c r s _ hsb, htr]
    cases hf : r.finalizing with
    | false =>
      refine ⟨?_, ?_⟩
      · simp [handleSyncRequest, handleSyncRequestFull, hd, hf, hpipe, errorResponse]
      · intro e he
        simp [handleSyncRequest, handleSyncRequestFull, hd, hf, hpipe] at he
        rcases he with he | he <;> simp [he, Effect.isBuildOrRun]
    | true =>
      by_cases hds : r.parent.spec.scripts.destroy = ""
      · refine ⟨?_, ?_⟩
        · simp [handleSyncRequest, handleSyncRequestFull, hd, hf, hds, errorResponse]
        · intro e he
          simp [handleSyncRequest, handleSyncRequestFull, hd, hf, hds] at he
          simp [he, Effect.isBuildOrRun]
      · refine ⟨?_, ?_⟩
        · simp [handleSyncRequest, handleSyncRequestFull, hd, hf, hds, hpipe, errorResponse]
        · intro e he
          simp [handleSyncRequest, handleSyncRequestFull, hd, hf, hds, hpipe] at he
          rcases he with he | he <;> simp [he, Effect.isBuildOrRun]

/-- Witness for `unknown_provider_terminal`: `provider = "doesnotexist"`
against the one-provider registry of `c0`. -/
theorem unknown_provider_terminal_witness :
    (handleSyncRequest c0
        (mkReq "sh deploy.sh" "sh destroy.sh" (some [("provider", "doesnotexist")]) false)).1.state
      = "error" ∧
    ∀ e ∈ (handleSyncRequest c0
        (mkReq "sh deploy.sh" "sh destroy.sh" (some [("provider", "doesnotexist")]) false)).2,
      e.isBuildOrRun = false :=
  unknown_provider_terminal c0
    (mkReq "sh deploy.sh" "sh destroy.sh" (some [("provider", "doesnotexist")]) false)
    [("provider", "doesnotexist")] "doesnotexist" rfl rfl (by decide) rfl

/-! ## Claim C6 -/

/-- The claim's precondition on the backend map: nil, empty, or lacking a
non-empty `provider` key. -/
def lacksProvider (backend : Option (List (String × String))) : Bool :=
  match backend with
  | none => true
  | some b =>
    b.length == 0 ||
      (match alookup b "provider" with
       | none => true
       | some p => p == "")

theorem pipeline_configMap_mem (c : Collab) (o : SyncRequest) (s : String)
    (hsb : (setupBackend c.registry o.parent.spec.backend).1.err = none) :
    Effect.configMap o.parent.metadata.name ∈ (handleSyncPipeline c o s).2 := by
  cases hcm : c.createDockerfileConfigMap o.parent.metadata.name o.parent.metadata.nspace
      (setupBackend c.registry o.parent.spec.backend).1.additions
      (setupBackend c.registry o.parent.spec.backend).1.providerExists with
  | error e =>
    simp only [handleSyncPipeline, hsb, hcm]
    simp
  | ok cmName =>
    cases hsec : c.createDockerConfigSecret (o.parent.metadata.name ++ "-container-secret")
        o.parent.metadata.nspace (c.getEnv "CONTAINER_REGISTRY_SECRET") with
    | some e =>
      simp only [handleSyncPipeline, hsb, hcm, hsec]
      simp
    | none =>
      cases hb : c.buildImage cmName (o.parent.metadata.name ++ "-container-secret") with
      | error e =>
        simp only [handleSyncPipeline, hsb, hcm, hsec, hb]
        simp
      | ok img =>
        simp only [handleSyncPipeline, hsb, hcm, hsec, hb]
        simp

/-- C6: for a backend map that is nil, empty, or lacks a non-empty
`provider` key, `setupBackend` returns no error, an empty
Dockerfile-additions string and `providerExists = false`, performing no
provider-registry interaction at all (empty trace); and the sync then
continues to the later stages (whenever the script checks pass, the
ConfigMap stage is reached). -/
theorem backend_absent_skips (reg : List (String × Provider))
    (backend : Option (List (String × String)))
    (h : lacksProvider backend = true) :
    setupBackend reg backend = ({ additions := "", providerExists := false, err := none }, []) ∧
    (∀ (c : Collab) (r : SyncRequest), r.parent.spec.backend = backend →
      r.parent.spec.scripts.deploy ≠ "" →
      (r.finalizing = true → r.parent.spec.scripts.destroy ≠ "") →
      Effect.configMap r.parent.metadata.name ∈ (handleSyncRequest c r).2) := by
  have hmain : ∀ (reg2 : List (String × Provider)),
      setupBackend reg2 backend = ({ additions := "", providerExists := false, err := none }, []) := by
    intro reg2
    cases backend with
    | none => rfl
    | some b =>
      by_cases hl : b.length = 0
      · simp [setupBackend, hl]
      · cases hpt : alookup b "provider" with
        | none => simp [setupBackend, if_neg hl, hpt]
        | some pt =>
          have hp0 : pt = "" := by
            simp only [lacksProvider] at h
            rw [hpt] at h
            simpa [hl] using h
          simp [setupBackend, if_neg hl, hpt, hp0]
  refine ⟨hmain reg, ?_⟩
  intro c r hb hd hds
  have hsb : (setupBackend c.registry r.parent.spec.backend).1.err = none := by
    rw [hb, hmain c.registry]
  cases hf : r.finalizing with
  | false =>
    have hmem := pipeline_configMap_mem c r r.parent.spec.scripts.deploy hsb
    simpa [handleSyncRequest, handleSyncRequestFull, hd, hf] using hmem
  | true =>
    have hds2 := hds hf
    have hmem := pipeline_configMap_mem c r r.parent.spec.scripts.destroy hsb
    simpa [handleSyncRequest, handleSyncRequestFull, hd, hf, hds2] using hmem

/-- Witness for `backend_absent_skips`: a backend map with no `provider`
key. -/
theorem backend_absent_skips_witness :
    setupBackend c0.registry (some [("foo", "bar")]) =
      ({ additions := "", providerExists := false, err := none }, []) :=
  (backend_absent_skips c0.registry (some [("foo", "bar")]) (by decide)).1

/-! ## Claim C7 -/

/-- C7 (amended: the code's format string is `"Error %s: %v"`, with a
capital E): every status returned by `handleSyncRequest` whose state is
"error" was composed by `errorResponse`, so its message has the exact
shape `"Error <doing X>: <cause>"`, the action names one of the six
failing stages, and the cause is that stage's own error string included
verbatim with no translation or sanitization: the missing-script
literal, the backend-stage error, or exactly the error string returned
by the ConfigMap, secret, or build collaborator. -/
theorem error_status_shape (c : Collab) (r : SyncRequest)
    (h : (handleSyncRequest c r).1.state = "error") :
    ∃ action cause,
      (handleSyncRequest c r).1 = errorResponse action cause ∧
      (handleSyncRequest c r).1.message = "Error " ++ action ++ ": " ++ cause ∧
      action ∈ ["executing deploy script", "executing destroy script", "setting up backend",
                "creating Dockerfile ConfigMap", "creating Docker config secret",
                "creating build job"] ∧
      ((action = "executing deploy script" ∧ cause = "deploy script is missing") ∨
       (action = "executing destroy script" ∧ cause = "destroy script is missing") ∨
       (action = "setting up backend" ∧
         (setupBackend c.registry r.parent.spec.backend).1.err = some cause) ∨
       (action = "creating Dockerfile ConfigMap" ∧
         c.createDockerfileConfigMap r.parent.metadata.name r.parent.metadata.nspace
           (setupBackend c.registry r.parent.spec.backend).1.additions
           (setupBackend c.registry r.parent.spec.backend).1.providerExists =
             Except.error cause) ∨
       (action = "creating Docker config secret" ∧
         c.createDockerConfigSecret (r.parent.metadata.name ++ "-container-secret")
           r.parent.metadata.nspace (c.getEnv "CONTAINER_REGISTRY_SECRET") = some cause) ∨
       (action = "creating build job" ∧
         ∃ cmName,
           c.createDockerfileConfigMap r.parent.metadata.name r.parent.metadata.nspace
             (setupBackend c.registry r.parent.spec.backend).1.additions
             (setupBackend c.registry r.parent.spec.backend).1.providerExists =
               Except.ok cmName ∧
           c.buildImage cmName (r.parent.metadata.name ++ "-container-secret") =
             Except.error cause)) := by
  by_cases hd : r.parent.spec.scripts.deploy = ""
  · refine ⟨"executing deploy script", "deploy script is missing", ?_, ?_, by simp,
      Or.inl ⟨rfl, rfl⟩⟩ <;>
      simp [handleSyncRequest, handleSyncRequestFull, hd, errorResponse]
  · have hpipe : ∀ s, (handleSyncPipeline c r s).1.state = "error" →
        ∃ action cause,
          (handleSyncPipeline c r s).1 = errorResponse action cause ∧
          (handleSyncPipeline c r s).1.message = "Error " ++ action ++ ": " ++ cause ∧
          action ∈ ["executing deploy script", "executing destroy script", "setting up backend",
                    "creating Dockerfile ConfigMap", "creating Docker config secret",
                    "creating build job"] ∧
          ((action = "executing deploy script" ∧ cause = "deploy script is missing") ∨
           (action = "executing destroy script" ∧ cause = "destroy script is missing") ∨
           (action = "setting up backend" ∧
             (setupBackend c.registry r.parent.spec.backend).1.err = some cause) ∨
           (action = "creating Dockerfile ConfigMap" ∧
             c.createDockerfileConfigMap r.parent.metadata.name r.parent.metadata.nspace
               (setupBackend c.registry r.parent.spec.backend).1.additions
               (setupBackend c.registry r.parent.spec.backend).1.providerExists =
                 Except.error cause) ∨
           (action = "creating Docker config secret" ∧
             c.createDockerConfigSecret (r.parent.metadata.name ++ "-container-secret")
               r.parent.metadata.nspace (c.getEnv "CONTAINER_REGISTRY_SECRET") = some cause) ∨
           (action = "creating build job" ∧
             ∃ cmName,
               c.createDockerfileConfigMap r.parent.metadata.name r.parent.metadata.nspace
                 (setupBackend c.registry r.parent.spec.backend).1.additions
                 (setupBackend c.registry r.parent.spec.backend).1.providerExists =
                   Except.ok cmName ∧
               c.buildImage cmName (r.parent.metadata.name ++ "-container-secret") =
                 Except.error cause)) := by
      intro s hs
      cases hsb : (setupBackend c.registry r.parent.spec.backend).1.err with
      | some e =>
        refine ⟨"setting up backend", e, ?_, ?_, by simp,
          Or.inr (Or.inr (Or.inl ⟨rfl, rfl⟩))⟩ <;>
          simp [handleSyncPipeline, hsb, errorResponse]
      | none =>
        cases hcm : c.createDockerfileConfigMap r.parent.metadata.name r.parent.metadata.nspace
            (setupBackend c.registry r.parent.spec.backend).1.additions
            (setupBackend c.registry r.parent.spec.backend).1.providerExists with
        | error e =>
          refine ⟨"creating Dockerfile ConfigMap", e, ?_, ?_, by simp,
            Or.inr (Or.inr (Or.inr (Or.inl ⟨rfl, rfl⟩)))⟩ <;>
            simp [handleSyncPipeline, hsb, hcm, errorResponse]
        | ok cmName =>
          cases hsec : c.createDockerConfigSecret (r.parent.metadata.name ++ "-container-secret")
              r.parent.metadata.nspace (c.getEnv "CONTAINER_REGISTRY_SECRET") with
          | some e =>
            refine ⟨"creating Docker config secret", e, ?_, ?_, by simp,
              Or.inr (Or.inr (Or.inr (Or.inr (Or.inl ⟨rfl, rfl⟩))))⟩ <;>
              simp [handleSyncPipeline, hsb, hcm, hsec, errorResponse]
          | none =>
            cases hb : c.buildImage cmName (r.parent.metadata.name ++ "-container-secret") with
            | error e =>
              refine ⟨"creating build job", e, ?_, ?_, by simp,
                Or.inr (Or.inr (Or.inr (Or.inr (Or.inr ⟨rfl, cmName, rfl, hb⟩))))⟩ <;>
                simp [handleSyncPipeline, hsb, hcm, hsec, hb, errorResponse]
            | ok img =>
              exfalso
              simp only [handleSyncPipeline, hsb, hcm, hsec, hb] at hs
              rcases hrt : (runLoop (fun s2 i => c.createRunPod
                  (extractEnvVars c r.parent.spec.variablesMap) img
                  (r.parent.metadata.name ++ "-container-secret") s2 i) s 0 maxRetries none).1 with
                _ | e2 <;> simp [runTerraform, hrt] at hs
    cases hf : r.finalizing with
    | false =>
      have hred : (handleSyncRequest c r).1 =
          (handleSyncPipeline c r r.parent.spec.scripts.deploy).1 := by
        simp [handleSyncRequest, handleSyncRequestFull, hd, hf]
      rw [hred] at h ⊢
      exact hpipe _ h
    | true =>
      by_cases hds : r.parent.spec.scripts.destroy = ""
      · refine ⟨"executing destroy script", "destroy script is missing", ?_, ?_, by simp,
          Or.inr (Or.inl ⟨rfl, rfl⟩)⟩ <;>
          simp [handleSyncRequest, handleSyncRequestFull, hd, hf, hds, errorResponse]
      · have hred : (handleSyncRequest c r).1 =
            (handleSyncPipeline c r r.parent.spec.scripts.destroy).1 := by
          simp [handleSyncRequest, handleSyncRequestFull, hd, hf, hds]
        rw [hred] at h ⊢
        exact hpipe _ h

/-- Witness for `error_status_shape`: the deploy-missing error status,
with its cause pinned to the missing-script literal. -/
theorem error_status_shape_witness :
    ∃ action cause,
      (handleSyncRequest c0 (mkReq "" "" none false)).1 = errorResponse action cause ∧
      (handleSyncRequest c0 (mkReq "" "" none false)).1.message =
        "Error " ++ action ++ ": " ++ cause ∧
      action ∈ ["executing deploy script", "executing destroy script", "setting up backend",
                "creating Dockerfile ConfigMap", "creating Docker config secret",
                "creating build job"] ∧
      ((action = "executing deploy script" ∧ cause = "deploy script is missing") ∨
       (action = "executing destroy script" ∧ cause = "destroy script is missing") ∨
       (action = "setting up backend" ∧
         (setupBackend c0.registry (mkReq "" "" none false).parent.spec.backend).1.err =
           some cause) ∨
       (action = "creating Dockerfile ConfigMap" ∧
         c0.createDockerfileConfigMap (mkReq "" "" none false).parent.metadata.name
           (mkReq "" "" none false).parent.metadata.nspace
           (setupBackend c0.registry (mkReq "" "" none false).parent.spec.backend).1.additions
           (setupBackend c0.registry (mkReq "" "" none false).parent.spec.backend).1.providerExists =
             Except.error cause) ∨
       (action = "creating Docker config secret" ∧
         c0.createDockerConfigSecret
           ((mkReq "" "" none false).parent.metadata.name ++ "-container-secret")
           (mkReq "" "" none false).parent.metadata.nspace
           (c0.getEnv "CONTAINER_REGISTRY_SECRET") = some cause) ∨
       (action = "creating build job" ∧
         ∃ cmName,
           c0.createDockerfileConfigMap (mkReq "" "" none false).parent.metadata.name
             (mkReq "" "" none false).parent.metadata.nspace
             (setupBackend c0.registry (mkReq "" "" none false).parent.spec.backend).1.additions
             (setupBackend c0.registry (mkReq "" "" none false).parent.spec.backend).1.providerExists =
               Except.ok cmName ∧
           c0.buildImage cmName
             ((mkReq "" "" none false).parent.metadata.name ++ "-container-secret") =
             Except.error cause)) :=
  error_status_shape c0 (mkReq "" "" none false) rfl

/-- Counterexample to C7 as stated: the actual message starts with
"Error" (capital E), so it does not have the claimed exact shape
`"error <doing X>: <cause>"` for any action and cause. -/
theorem error_status_shape_counterexample :
    (handleSyncRequest c0 (mkReq "" "" none false)).1.message =
      "Error executing deploy script: deploy script is missing" ∧
    ¬ ∃ doingX cause : String,
        "Error executing deploy script: deploy script is missing" =
          "error " ++ doingX ++ ": " ++ cause := by
  refine ⟨rfl, ?_⟩
  rintro ⟨a, cc, hcl⟩
  have hd : ("Error executing deploy script: deploy script is missing").data =
      ("error " ++ a ++ ": " ++ cc).data := congrArg String.data hcl
  rw [String.data_append, String.data_append, String.data_append] at hd
  have h1 : ("Error executing deploy script: deploy script is missing").data =
      'E' :: ("rror executing deploy script: deploy script is missing").data := rfl
  have h2 : ("error ").data = 'e' :: ("rror ").data := rfl
  rw [h1, h2] at hd
  simp at hd

/-! ## Claim C9 -/

/-- C9: `handleSyncRequest` never mutates its `SyncRequest` argument: the
`observed` local at every return point still holds the request passed in,
and the selected script lives only in the separate `scriptContent` local
(deploy, or destroy when finalizing with a non-empty deploy). -/
theorem syncRequest_not_mutated (c : Collab) (r : SyncRequest) :
    (handleSyncRequestFull c r).2.2.observed = r ∧
    (handleSyncRequestFull c r).2.2.scriptContent =
      (if r.parent.spec.scripts.deploy = "" then r.parent.spec.scripts.deploy
       else if r.finalizing then r.parent.spec.scripts.destroy
       else r.parent.spec.scripts.deploy) := by
  by_cases hd : r.parent.spec.scripts.deploy = ""
  · constructor <;> simp [handleSyncRequestFull, hd]
  · cases hf : r.finalizing with
    | false => constructor <;> simp [handleSyncRequestFull, hd, hf]
    | true =>
      by_cases hds : r.parent.spec.scripts.destroy = ""
      · constructor <;> simp [handleSyncRequestFull, hd, hf, hds]
      · constructor <;> simp [handleSyncRequestFull, hd, hf, hds]

/-! ## Claim C8 -/

/-- Resolve a volume name to its source within a pod spec's volume list. -/
def volSource (vols : List Volume) (n : String) : Option VolumeSource :=
  (vols.find? fun v => v.vname == n).map Volume.source

/-- C8 (amended: the Dockerfile mount is not flagged read-only — the Go
literal omits `ReadOnly`, which therefore defaults to false): the build
pod has exactly one container, restart policy Never, and exactly four
volume mounts — the rendered Dockerfile from the ConfigMap, the locally
checked-out repository content (hostPath), the registry credential
secret, and a cache/log volume backed by a persistent volume claim. -/
theorem buildPod_shape (name configMapName imageName pvcName dockerSecretName repoDir : String) :
    (buildPodSpec name configMapName imageName pvcName dockerSecretName repoDir).pname =
      name ++ "-docker-build-pod" ∧
    (buildPodSpec name configMapName imageName pvcName dockerSecretName repoDir).spec.restartPolicy =
      RestartPolicy.never ∧
    ∃ cont,
      (buildPodSpec name configMapName imageName pvcName dockerSecretName repoDir).spec.containers
        = [cont] ∧
      cont.volumeMounts.map VolumeMount.vname =
        ["dockerfile-config", "workspace", "docker-credentials", "kaniko-logs"] ∧
      (∀ vm ∈ cont.volumeMounts, vm.readOnly = false) ∧
      volSource (buildPodSpec name configMapName imageName pvcName dockerSecretName repoDir).spec.volumes
          "dockerfile-config" =
        some (VolumeSource.configMap configMapName [("Dockerfile", "Dockerfile")]) ∧
      volSource (buildPodSpec name configMapName imageName pvcName dockerSecretName repoDir).spec.volumes
          "workspace" = some (VolumeSource.hostPath repoDir) ∧
      volSource (buildPodSpec name configMapName imageName pvcName dockerSecretName repoDir).spec.volumes
          "docker-credentials" =
        some (VolumeSource.secret dockerSecretName [(".dockerconfigjson", "config.json")]) ∧
      volSource (buildPodSpec name configMapName imageName pvcName dockerSecretName repoDir).spec.volumes
          "kaniko-logs" = some (VolumeSource.pvc pvcName) := by
  refine ⟨rfl, rfl, ?_⟩
  refine ⟨_, rfl, rfl, ?_, ?_, ?_, ?_, ?_⟩ <;> simp [buildPodSpec, volSource]

/-- Counterexample to C8 as stated: the `dockerfile-config` mount of the
created pod has `ReadOnly = false` (the field is omitted in the source),
so the Dockerfile is not mounted read-only. -/
theorem buildPod_readonly_counterexample :
    ((buildPodSpec "my-app" "cm" "img" "pvc" "sec" "/tmp/my-app").spec.containers.map
       fun cont =>
         (cont.volumeMounts.filter fun vm => vm.vname == "dockerfile-config").map
           VolumeMount.readOnly) = [[false]] := by
  decide

/-! ## Cluster lemmas for `CreateBuildPod` -/

theorem findPod_pods_eq (cl1 cl2 : Cluster) (h : cl1.pods = cl2.pods) (n : String) :
    cl1.findPod n = cl2.findPod n := by
  unfold Cluster.findPod
  rw [h]

theorem EnsurePVC_ok_pods (f : Faults) (cl : Cluster) (pvc : String)
    (hf : f.pvcErr = none) :
    ∃ cl1, EnsurePVC f cl pvc = Except.ok cl1 ∧ cl1.pods = cl.pods := by
  unfold EnsurePVC
  rw [hf]
  cases h : cl.pvcs.contains pvc with
  | true => exact ⟨cl, by simp [h], rfl⟩
  | false => exact ⟨{ cl with pvcs := cl.pvcs ++ [pvc] }, by simp [h], rfl⟩

theorem clearFinalizers_names (cl : Cluster) (n : String) :
    ∀ q ∈ (cl.clearFinalizers n).pods, q.pod.pname = n → q.finalizers = [] := by
  intro q hq hqn
  rcases List.mem_map.mp hq with ⟨p, hp, hqe⟩
  by_cases hpn : p.pod.pname == n
  · rw [if_pos hpn] at hqe
    rw [← hqe]
  · rw [if_neg hpn] at hqe
    subst hqe
    exact absurd (by simpa using hqn) hpn

theorem removePod_no_named (cl : Cluster) (n : String)
    (hclean : ∀ p ∈ cl.pods, p.pod.pname = n → p.finalizers = []) :
    ∀ q ∈ (cl.removePod n).pods, q.pod.pname ≠ n := by
  intro q hq hqn
  rcases List.mem_filterMap.mp hq with ⟨p, hp, hpe⟩
  by_cases hpn : p.pod.pname == n
  · rw [if_pos hpn] at hpe
    have hfin : p.finalizers = [] := hclean p hp (by simpa using hpn)
    rw [hfin] at hpe
    simp at hpe
  · rw [if_neg hpn] at hpe
    have hpq : p = q := by simpa using hpe
    subst hpq
    exact absurd (by simpa using hqn) hpn

theorem findPod_eq_none_of (cl : Cluster) (n : String)
    (h : ∀ q ∈ cl.pods, q.pod.pname ≠ n) : cl.findPod n = none := by
  unfold Cluster.findPod
  exact List.find?_eq_none.mpr fun a ha => by simpa using h a ha

theorem createPodStep_ok (f : Faults) (cl : Cluster) (pod : Pod)
    (hf : f.createErr = none) (h : cl.findPod pod.pname = none) :
    createPodStep f cl pod = Except.ok (cl.addPod pod) := by
  unfold createPodStep
  rw [hf, h]

theorem deleteThenCreate_ok (f : Faults) (cl : Cluster) (pn : String) (pod : Pod)
    (tr : List ApiCall) (hdel : f.deleteErr = none) (hcr : f.createErr = none)
    (hpn : pod.pname = pn)
    (hclean : ∀ p ∈ cl.pods, p.pod.pname = pn → p.finalizers = []) :
    deleteThenCreate f cl pn pod tr =
      (Except.ok (), (cl.removePod pn).addPod pod,
       tr ++ [ApiCall.deletePod pn, ApiCall.createPod pod.pname]) := by
  have hnone : (cl.removePod pn).findPod pod.pname = none := by
    rw [hpn]
    exact findPod_eq_none_of _ _ (removePod_no_named cl pn hclean)
  have hstep := createPodStep_ok f (cl.removePod pn) pod hcr hnone
  simp only [deleteThenCreate, hdel, hstep]

/-- The cluster after a successful `CreateBuildPod`: a fresh pod appended
after a remainder that holds no pod of the build-pod name. -/
def freshOnly (cl : Cluster) (n : String) (pod : Pod) : Prop :=
  ∃ rest, cl.pods = rest ++ [{ pod := pod, finalizers := [], deletionRequested := false }] ∧
    ∀ q ∈ rest, q.pod.pname ≠ n

theorem freshOnly_props (cl : Cluster) (n : String) (pod : Pod)
    (hpn : pod.pname = n) (h : freshOnly cl n pod) :
    cl.findPod n = some { pod := pod, finalizers := [], deletionRequested := false } ∧
    (∀ q ∈ cl.pods, q.pod.pname = n →
      q = { pod := pod, finalizers := [], deletionRequested := false }) ∧
    cl.countPod n = 1 := by
  obtain ⟨rest, hre, hrn⟩ := h
  have hrnone : rest.find? (fun p => p.pod.pname == n) = none :=
    List.find?_eq_none.mpr fun a ha => by simpa using hrn a ha
  refine ⟨?_, ?_, ?_⟩
  · unfold Cluster.findPod
    rw [hre, List.find?_append, hrnone]
    simp [hpn]
  · intro q hq hqn
    rw [hre] at hq
    rcases List.mem_append.mp hq with hl | hr
    · exact absurd hqn (hrn q hl)
    · simpa using hr
  · unfold Cluster.countPod
    rw [hre, List.filter_append, List.filter_eq_nil_iff.mpr
          (fun a ha => by simpa using hrn a ha)]
    simp [hpn]

theorem noFaults_pvcErr : noFaults.pvcErr = none := rfl

theorem noFaults_getErr : noFaults.getErr = none := rfl

theorem CreateBuildPod_absent (cl0 : Cluster) (name cm img pvc sec repo : String)
    (h : cl0.findPod (name ++ "-docker-build-pod") = none) :
    (CreateBuildPod noFaults cl0 name cm img pvc sec repo).1 = Except.ok () ∧
    (CreateBuildPod noFaults cl0 name cm img pvc sec repo).2.2 =
      [ApiCall.ensurePVC pvc, ApiCall.getPod (name ++ "-docker-build-pod"),
       ApiCall.createPod (name ++ "-docker-build-pod")] ∧
    freshOnly (CreateBuildPod noFaults cl0 name cm img pvc sec repo).2.1
      (name ++ "-docker-build-pod") (buildPodSpec name cm img pvc sec repo) := by
  obtain ⟨cl1, hok, hpods⟩ := EnsurePVC_ok_pods noFaults cl0 pvc rfl
  have hfind1 : cl1.findPod (name ++ "-docker-build-pod") = none := by
    rw [findPod_pods_eq cl1 cl0 hpods]
    exact h
  have hstep : createPodStep noFaults cl1 (buildPodSpec name cm img pvc sec repo) =
      Except.ok (cl1.addPod (buildPodSpec name cm img pvc sec repo)) :=
    createPodStep_ok noFaults cl1 _ rfl hfind1
  refine ⟨?_, ?_, ?_⟩
  · simp only [CreateBuildPod, hok, noFaults_getErr, hfind1, hstep]
  · simp only [CreateBuildPod, hok, noFaults_getErr, hfind1, hstep]
    rfl
  · simp only [CreateBuildPod, hok, noFaults_getErr, hfind1, hstep]
    refine ⟨cl1.pods, rfl, ?_⟩
    intro q hq
    rw [hpods] at hq
    have hall := List.find?_eq_none.mp h q hq
    simpa using hall

theorem CreateBuildPod_present (cl0 : Cluster) (name cm img pvc sec repo : String)
    (ex : ClusterPod)
    (h : cl0.findPod (name ++ "-docker-build-pod") = some ex)
    (hclean : ∀ p ∈ cl0.pods, p.pod.pname = name ++ "-docker-build-pod" →
      p.finalizers = ex.finalizers) :
    (CreateBuildPod noFaults cl0 name cm img pvc sec repo).1 = Except.ok () ∧
    (CreateBuildPod noFaults cl0 name cm img pvc sec repo).2.2 =
      (if ex.finalizers.length > 0 then
        [ApiCall.ensurePVC pvc, ApiCall.getPod (name ++ "-docker-build-pod"),
         ApiCall.patchPod (name ++ "-docker-build-pod"),
         ApiCall.deletePod (name ++ "-docker-build-pod"),
         ApiCall.createPod (name ++ "-docker-build-pod")]
      else
        [ApiCall.ensurePVC pvc, ApiCall.getPod (name ++ "-docker-build-pod"),
         ApiCall.deletePod (name ++ "-docker-build-pod"),
         ApiCall.createPod (name ++ "-docker-build-pod")]) ∧
    freshOnly (CreateBuildPod noFaults cl0 name cm img pvc sec repo).2.1
      (name ++ "-docker-build-pod") (buildPodSpec name cm img pvc sec repo) := by
  obtain ⟨cl1, hok, hpods⟩ := EnsurePVC_ok_pods noFaults cl0 pvc rfl
  have hfind1 : cl1.findPod (name ++ "-docker-build-pod") = some ex := by
    rw [findPod_pods_eq cl1 cl0 hpods]
    exact h
  by_cases hfin : ex.finalizers.length > 0
  · have hpatch : removeFinalizers noFaults cl1 (name ++ "-docker-build-pod") =
        Except.ok (cl1.clearFinalizers (name ++ "-docker-build-pod")) := rfl
    have hdtc := deleteThenCreate_ok noFaults
      (cl1.clearFinalizers (name ++ "-docker-build-pod"))
      (name ++ "-docker-build-pod") (buildPodSpec name cm img pvc sec repo)
      ([ApiCall.ensurePVC pvc, ApiCall.getPod (name ++ "-docker-build-pod")] ++
       [ApiCall.patchPod (name ++ "-docker-build-pod")])
      rfl rfl rfl (clearFinalizers_names cl1 (name ++ "-docker-build-pod"))
    refine ⟨?_, ?_, ?_⟩
    · simp only [CreateBuildPod, hok, noFaults_getErr, hfind1, if_pos hfin, hpatch, hdtc]
    · simp only [CreateBuildPod, hok, noFaults_getErr, hfind1, if_pos hfin, hpatch, hdtc]
      rfl
    · simp only [CreateBuildPod, hok, noFaults_getErr, hfind1, if_pos hfin, hpatch, hdtc]
      exact ⟨((cl1.clearFinalizers (name ++ "-docker-build-pod")).removePod
          (name ++ "-docker-build-pod")).pods, rfl,
        removePod_no_named _ _ (clearFinalizers_names cl1 _)⟩
  · have hexnil : ex.finalizers = [] := List.length_eq_zero.mp (by omega)
    have hclean1 : ∀ p ∈ cl1.pods, p.pod.pname = name ++ "-docker-build-pod" →
        p.finalizers = [] := by
      intro p hp hpn
      rw [hpods] at hp
      rw [hclean p hp hpn, hexnil]
    have hdtc := deleteThenCreate_ok noFaults cl1
      (name ++ "-docker-build-pod") (buildPodSpec name cm img pvc sec repo)
      [ApiCall.ensurePVC pvc, ApiCall.getPod (name ++ "-docker-build-pod")]
      rfl rfl rfl hclean1
    refine ⟨?_, ?_, ?_⟩
    · simp only [CreateBuildPod, hok, noFaults_getErr, hfind1, if_neg hfin, hdtc]
    · simp only [CreateBuildPod, hok, noFaults_getErr, hfind1, if_neg hfin, hdtc]
      rfl
    · simp only [CreateBuildPod, hok, noFaults_getErr, hfind1, if_neg hfin, hdtc]
      exact ⟨(cl1.removePod (name ++ "-docker-build-pod")).pods, rfl,
        removePod_no_named cl1 _ hclean1⟩

/-! ## Claim C4 -/

/-- C4: `CreateBuildPod` for resource name `N` always addresses the
deterministic pod name `N ++ "-docker-build-pod"`; when a pod of that
name exists it patches its finalizers away first (only when the
finalizer list is non-empty), then issues the delete and immediately the
create with no intervening call; when no such pod exists it creates
directly; and running the operation twice in sequence succeeds both
times and leaves exactly one live (non-terminating, finalizer-free)
build pod of that name. -/
theorem createBuildPod_idempotent (cl0 : Cluster) (name cm img pvc sec repo : String)
    (hdup : ∀ p ∈ cl0.pods, ∀ q ∈ cl0.pods,
      p.pod.pname = name ++ "-docker-build-pod" →
      q.pod.pname = name ++ "-docker-build-pod" → p = q) :
    (CreateBuildPod noFaults cl0 name cm img pvc sec repo).1 = Except.ok () ∧
    (cl0.findPod (name ++ "-docker-build-pod") = none →
      (CreateBuildPod noFaults cl0 name cm img pvc sec repo).2.2 =
        [ApiCall.ensurePVC pvc, ApiCall.getPod (name ++ "-docker-build-pod"),
         ApiCall.createPod (name ++ "-docker-build-pod")]) ∧
    (∀ ex, cl0.findPod (name ++ "-docker-build-pod") = some ex →
      (CreateBuildPod noFaults cl0 name cm img pvc sec repo).2.2 =
        (if ex.finalizers.length > 0 then
          [ApiCall.ensurePVC pvc, ApiCall.getPod (name ++ "-docker-build-pod"),
           ApiCall.patchPod (name ++ "-docker-build-pod"),
           ApiCall.deletePod (name ++ "-docker-build-pod"),
           ApiCall.createPod (name ++ "-docker-build-pod")]
        else
          [ApiCall.ensurePVC pvc, ApiCall.getPod (name ++ "-docker-build-pod"),
           ApiCall.deletePod (name ++ "-docker-build-pod"),
           ApiCall.createPod (name ++ "-docker-build-pod")])) ∧
    (CreateBuildPod noFaults (CreateBuildPod noFaults cl0 name cm img pvc sec repo).2.1
       name cm img pvc sec repo).1 = Except.ok () ∧
    (CreateBuildPod noFaults (CreateBuildPod noFaults cl0 name cm img pvc sec repo).2.1
       name cm img pvc sec repo).2.2 =
      [ApiCall.ensurePVC pvc, ApiCall.getPod (name ++ "-docker-build-pod"),
       ApiCall.deletePod (name ++ "-docker-build-pod"),
       ApiCall.createPod (name ++ "-docker-build-pod")] ∧
    (CreateBuildPod noFaults (CreateBuildPod noFaults cl0 name cm img pvc sec repo).2.1
       name cm img pvc sec repo).2.1.countPod (name ++ "-docker-build-pod") = 1 ∧
    (∀ q ∈ (CreateBuildPod noFaults (CreateBuildPod noFaults cl0 name cm img pvc sec repo).2.1
       name cm img pvc sec repo).2.1.pods,
      q.pod.pname = name ++ "-docker-build-pod" →
      q.finalizers = [] ∧ q.deletionRequested = false) := by
  have hcleanOf : ∀ ex, cl0.findPod (name ++ "-docker-build-pod") = some ex →
      ∀ p ∈ cl0.pods, p.pod.pname = name ++ "-docker-build-pod" →
      p.finalizers = ex.finalizers := by
    intro ex hex p hp hpn
    have hex2 : cl0.pods.find?
        (fun p => p.pod.pname == name ++ "-docker-build-pod") = some ex := hex
    have hexmem : ex ∈ cl0.pods := List.mem_of_find?_eq_some hex2
    have hexname : ex.pod.pname = name ++ "-docker-build-pod" := by
      simpa using List.find?_some hex2
    rw [hdup p hp ex hexmem hpn hexname]
  have h1 : (CreateBuildPod noFaults cl0 name cm img pvc sec repo).1 = Except.ok () ∧
      freshOnly (CreateBuildPod noFaults cl0 name cm img pvc sec repo).2.1
        (name ++ "-docker-build-pod") (buildPodSpec name cm img pvc sec repo) := by
    cases hex : cl0.findPod (name ++ "-docker-build-pod") with
    | none =>
      obtain ⟨a, _, cfr⟩ := CreateBuildPod_absent cl0 name cm img pvc sec repo hex
      exact ⟨a, cfr⟩
    | some ex =>
      obtain ⟨a, _, cfr⟩ := CreateBuildPod_present cl0 name cm img pvc sec repo ex hex
        (hcleanOf ex hex)
      exact ⟨a, cfr⟩
  obtain ⟨hr1ok, hr1fresh⟩ := h1
  obtain ⟨hfind2, hnamed2, _⟩ := freshOnly_props _ _ _ rfl hr1fresh
  have hclean2 : ∀ p ∈ (CreateBuildPod noFaults cl0 name cm img pvc sec repo).2.1.pods,
      p.pod.pname = name ++ "-docker-build-pod" →
      p.finalizers = ({ pod := buildPodSpec name cm img pvc sec repo, finalizers := [],
                        deletionRequested := false } : ClusterPod).finalizers := by
    intro p hp hpn
    rw [hnamed2 p hp hpn]
  obtain ⟨hr2ok, hr2tr, hr2fresh⟩ :=
    CreateBuildPod_present (CreateBuildPod noFaults cl0 name cm img pvc sec repo).2.1
      name cm img pvc sec repo _ hfind2 hclean2
  obtain ⟨_, hnamed3, hcount3⟩ := freshOnly_props _ _ _ rfl hr2fresh
  refine ⟨hr1ok, ?_, ?_, hr2ok, ?_, hcount3, ?_⟩
  · intro hex
    exact (CreateBuildPod_absent cl0 name cm img pvc sec repo hex).2.1
  · intro ex hex
    exact (CreateBuildPod_present cl0 name cm img pvc sec repo ex hex (hcleanOf ex hex)).2.1
  · simpa using hr2tr
  · intro q hq hqn
    rw [hnamed3 q hq hqn]
    exact ⟨rfl, rfl⟩

/-- Witness for `createBuildPod_idempotent`: a cluster holding one stuck
build pod (non-empty finalizers); after two runs exactly one live build
pod remains, and the first run's trace patches before deleting. -/
theorem createBuildPod_idempotent_witness :
    (CreateBuildPod noFaults
      ⟨[{ pod := buildPodSpec "my-app" "cm" "img" "pvc" "sec" "/tmp/my-app",
          finalizers := ["example.com/stuck"], deletionRequested := false }], []⟩
      "my-app" "cm" "img" "pvc" "sec" "/tmp/my-app").1 = Except.ok () ∧
    (CreateBuildPod noFaults
      (CreateBuildPod noFaults
        ⟨[{ pod := buildPodSpec "my-app" "cm" "img" "pvc" "sec" "/tmp/my-app",
            finalizers := ["example.com/stuck"], deletionRequested := false }], []⟩
        "my-app" "cm" "img" "pvc" "sec" "/tmp/my-app").2.1
      "my-app" "cm" "img" "pvc" "sec" "/tmp/my-app").2.1.countPod
        ("my-app" ++ "-docker-build-pod") = 1 := by
  have h := createBuildPod_idempotent
    ⟨[{ pod := buildPodSpec "my-app" "cm" "img" "pvc" "sec" "/tmp/my-app",
        finalizers := ["example.com/stuck"], deletionRequested := false }], []⟩
    "my-app" "cm" "img" "pvc" "sec" "/tmp/my-app" (by decide)
  exact ⟨h.1, h.2.2.2.2.2.1⟩

/-! ## Claim C10 -/

theorem EnsurePVC_err (f : Faults) (cl : Cluster) (pvc e : String)
    (h : f.pvcErr = some e) : EnsurePVC f cl pvc = Except.error e := by
  unfold EnsurePVC
  rw [h]

theorem removeFinalizers_err (f : Faults) (cl : Cluster) (n e : String)
    (h : f.patchErr = some e) : removeFinalizers f cl n = Except.error e := by
  unfold removeFinalizers
  rw [h]

theorem removeFinalizers_ok (f : Faults) (cl : Cluster) (n : String)
    (h : f.patchErr = none) : removeFinalizers f cl n = Except.ok (cl.clearFinalizers n) := by
  unfold removeFinalizers
  rw [h]

theorem deleteThenCreate_delErr (f : Faults) (cl : Cluster) (pn : String) (pod : Pod)
    (tr : List ApiCall) (e : String) (h : f.deleteErr = some e) :
    deleteThenCreate f cl pn pod tr = (Except.error e, cl, tr ++ [ApiCall.deletePod pn]) := by
  unfold deleteThenCreate
  rw [h]

theorem deleteThenCreate_trace (f : Faults) (cl : Cluster) (pn : String) (pod : Pod)
    (tr : List ApiCall) (h : f.deleteErr = none) :
    (deleteThenCreate f cl pn pod tr).2.2 =
      tr ++ [ApiCall.deletePod pn, ApiCall.createPod pod.pname] := by
  simp only [deleteThenCreate, h]
  cases h2 : createPodStep f (cl.removePod pn) pod with
  | error e => rfl
  | ok cl3 => rfl

/-- C10: fault handling in `CreateBuildPod`.  A non-NotFound lookup
failure aborts before any patch, delete or create; a finalizer-patch
failure aborts before the create (and before the delete); a delete
failure aborts before the create; and in every execution a create is
issued only for the deterministic name and only when the pod was absent
or its deletion was successfully requested first. -/
theorem createBuildPod_error_paths (f : Faults) (cl0 : Cluster)
    (name cm img pvc sec repo : String) :
    (∀ e, f.pvcErr = none → f.getErr = some e →
      ∃ cl1, CreateBuildPod f cl0 name cm img pvc sec repo =
        (Except.error e, cl1,
         [ApiCall.ensurePVC pvc, ApiCall.getPod (name ++ "-docker-build-pod")]) ∧
        cl1.pods = cl0.pods) ∧
    (∀ e ex, f.pvcErr = none → f.getErr = none →
      cl0.findPod (name ++ "-docker-build-pod") = some ex →
      ex.finalizers.length > 0 → f.patchErr = some e →
      ∃ cl1, CreateBuildPod f cl0 name cm img pvc sec repo =
        (Except.error e, cl1,
         [ApiCall.ensurePVC pvc, ApiCall.getPod (name ++ "-docker-build-pod"),
          ApiCall.patchPod (name ++ "-docker-build-pod")]) ∧
        cl1.pods = cl0.pods) ∧
    (∀ e ex, f.pvcErr = none → f.getErr = none →
      cl0.findPod (name ++ "-docker-build-pod") = some ex →
      f.patchErr = none → f.deleteErr = some e →
      (CreateBuildPod f cl0 name cm img pvc sec repo).1 = Except.error e ∧
      ApiCall.createPod (name ++ "-docker-build-pod") ∉
        (CreateBuildPod f cl0 name cm img pvc sec repo).2.2) ∧
    (∀ n2, ApiCall.createPod n2 ∈ (CreateBuildPod f cl0 name cm img pvc sec repo).2.2 →
      n2 = name ++ "-docker-build-pod" ∧
      (cl0.findPod (name ++ "-docker-build-pod") = none ∨
        (f.deleteErr = none ∧
         ApiCall.deletePod (name ++ "-docker-build-pod") ∈
           (CreateBuildPod f cl0 name cm img pvc sec repo).2.2))) := by
  refine ⟨?_, ?_, ?_, ?_⟩
  · intro e hpvc hget
    obtain ⟨cl1, hok, hpods⟩ := EnsurePVC_ok_pods f cl0 pvc hpvc
    refine ⟨cl1, ?_, hpods⟩
    simp only [CreateBuildPod, hok, hget]
  · intro e ex hpvc hget hex hfin hpatch
    obtain ⟨cl1, hok, hpods⟩ := EnsurePVC_ok_pods f cl0 pvc hpvc
    have hfind1 : cl1.findPod (name ++ "-docker-build-pod") = some ex := by
      rw [findPod_pods_eq cl1 cl0 hpods]
      exact hex
    have hrm := removeFinalizers_err f cl1 (name ++ "-docker-build-pod") e hpatch
    refine ⟨cl1, ?_, hpods⟩
    simp only [CreateBuildPod, hok, hget, hfind1, if_pos hfin, hrm]
    rfl
  · intro e ex hpvc hget hex hpatch hdel
    obtain ⟨cl1, hok, hpods⟩ := EnsurePVC_ok_pods f cl0 pvc hpvc
    have hfind1 : cl1.findPod (name ++ "-docker-build-pod") = some ex := by
      rw [findPod_pods_eq cl1 cl0 hpods]
      exact hex
    by_cases hfin : ex.finalizers.length > 0
    · have hrm := removeFinalizers_ok f cl1 (name ++ "-docker-build-pod") hpatch
      have hdc := deleteThenCreate_delErr f
        (cl1.clearFinalizers (name ++ "-docker-build-pod"))
        (name ++ "-docker-build-pod") (buildPodSpec name cm img pvc sec repo)
        ([ApiCall.ensurePVC pvc, ApiCall.getPod (name ++ "-docker-build-pod")] ++
         [ApiCall.patchPod (name ++ "-docker-build-pod")]) e hdel
      constructor
      · simp only [CreateBuildPod, hok, hget, hfind1, if_pos hfin, hrm, hdc]
      · simp only [CreateBuildPod, hok, hget, hfind1, if_pos hfin, hrm, hdc]
        simp
    · have hdc := deleteThenCreate_delErr f cl1
        (name ++ "-docker-build-pod") (buildPodSpec name cm img pvc sec repo)
        [ApiCall.ensurePVC pvc, ApiCall.getPod (name ++ "-docker-build-pod")] e hdel
      constructor
      · simp only [CreateBuildPod, hok, hget, hfind1, if_neg hfin, hdc]
      · simp only [CreateBuildPod, hok, hget, hfind1, if_neg hfin, hdc]
        simp
  · intro n2 hmem
    cases hpvc : f.pvcErr with
    | some e0 =>
      have herr := EnsurePVC_err f cl0 pvc e0 hpvc
      simp only [CreateBuildPod, herr] at hmem
      simp at hmem
    | none =>
      obtain ⟨cl1, hok, hpods⟩ := EnsurePVC_ok_pods f cl0 pvc hpvc
      have hfpe := findPod_pods_eq cl1 cl0 hpods (name ++ "-docker-build-pod")
      cases hget : f.getErr with
      | some e =>
        simp only [CreateBuildPod, hok, hget] at hmem
        simp at hmem
      | none =>
        cases hex : cl1.findPod (name ++ "-docker-build-pod") with
        | none =>
          simp only [CreateBuildPod, hok, hget, hex] at hmem ⊢
          cases hstep : createPodStep f cl1 (buildPodSpec name cm img pvc sec repo) with
          | error e =>
            rw [hstep] at hmem
            simp at hmem
            exact ⟨hmem, Or.inl (by rw [← hfpe]; exact hex)⟩
          | ok cl2 =>
            rw [hstep] at hmem
            simp at hmem
            exact ⟨hmem, Or.inl (by rw [← hfpe]; exact hex)⟩
        | some ex =>
          have hexc : cl0.findPod (name ++ "-docker-build-pod") = some ex := by
            rw [← hfpe]
            exact hex
          by_cases hfin : ex.finalizers.length > 0
          · cases hpatch : f.patchErr with
            | some e =>
              have hrm := removeFinalizers_err f cl1 (name ++ "-docker-build-pod") e hpatch
              simp only [CreateBuildPod, hok, hget, hex, if_pos hfin, hrm] at hmem
              simp at hmem
            | none =>
              have hrm := removeFinalizers_ok f cl1 (name ++ "-docker-build-pod") hpatch
              cases hdel : f.deleteErr with
              | some e =>
                have hdc := deleteThenCreate_delErr f
                  (cl1.clearFinalizers (name ++ "-docker-build-pod"))
                  (name ++ "-docker-build-pod") (buildPodSpec name cm img pvc sec repo)
                  ([ApiCall.ensurePVC pvc, ApiCall.getPod (name ++ "-docker-build-pod")] ++
                   [ApiCall.patchPod (name ++ "-docker-build-pod")]) e hdel
                simp only [CreateBuildPod, hok, hget, hex, if_pos hfin, hrm, hdc] at hmem
                simp at hmem
              | none =>
                have htr := deleteThenCreate_trace f
                  (cl1.clearFinalizers (name ++ "-docker-build-pod"))
                  (name ++ "-docker-build-pod") (buildPodSpec name cm img pvc sec repo)
                  ([ApiCall.ensurePVC pvc, ApiCall.getPod (name ++ "-docker-build-pod")] ++
                   [ApiCall.patchPod (name ++ "-docker-build-pod")]) hdel
                simp only [CreateBuildPod, hok, hget, hex, if_pos hfin, hrm] at hmem ⊢
                rw [htr] at hmem
                simp at hmem
                refine ⟨hmem, Or.inr ⟨by simp, ?_⟩⟩
                rw [htr]
                simp
          · cases hdel : f.deleteErr with
            | some e =>
              have hdc := deleteThenCreate_delErr f cl1
                (name ++ "-docker-build-pod") (buildPodSpec name cm img pvc sec repo)
                [ApiCall.ensurePVC pvc, ApiCall.getPod (name ++ "-docker-build-pod")] e hdel
              simp only [CreateBuildPod, hok, hget, hex, if_neg hfin, hdc] at hmem
              simp at hmem
            | none =>
              have htr := deleteThenCreate_trace f cl1
                (name ++ "-docker-build-pod") (buildPodSpec name cm img pvc sec repo)
                [ApiCall.ensurePVC pvc, ApiCall.getPod (name ++ "-docker-build-pod")] hdel
              simp only [CreateBuildPod, hok, hget, hex, if_neg hfin] at hmem ⊢
              rw [htr] at hmem
              simp at hmem
              refine ⟨hmem, Or.inr ⟨by simp, ?_⟩⟩
              rw [htr]
              simp

/-- Witness for `createBuildPod_error_paths`: a failing delete on a
cluster holding a finalizer-free build pod returns the delete error and
never issues the create. -/
theorem createBuildPod_error_paths_witness :
    (CreateBuildPod ⟨none, none, none, some "delete timed out", none⟩
      ⟨[{ pod := buildPodSpec "my-app" "cm" "img" "pvc" "sec" "/tmp/my-app",
          finalizers := [], deletionRequested := false }], []⟩
      "my-app" "cm" "img" "pvc" "sec" "/tmp/my-app").1 = Except.error "delete timed out" ∧
    ApiCall.createPod ("my-app" ++ "-docker-build-pod") ∉
      (CreateBuildPod ⟨none, none, none, some "delete timed out", none⟩
        ⟨[{ pod := buildPodSpec "my-app" "cm" "img" "pvc" "sec" "/tmp/my-app",
            finalizers := [], deletionRequested := false }], []⟩
        "my-app" "cm" "img" "pvc" "sec" "/tmp/my-app").2.2 :=
  (createBuildPod_error_paths ⟨none, none, none, some "delete timed out", none⟩
      ⟨[{ pod := buildPodSpec "my-app" "cm" "img" "pvc" "sec" "/tmp/my-app",
          finalizers := [], deletionRequested := false }], []⟩
      "my-app" "cm" "img" "pvc" "sec" "/tmp/my-app").2.2.1
    "delete timed out"
    { pod := buildPodSpec "my-app" "cm" "img" "pvc" "sec" "/tmp/my-app",
      finalizers := [], deletionRequested := false }
    rfl rfl (by decide) rfl rfl

/-- Witness for `buildPod_shape`: the concrete build pod for resource
"my-app" carries the deterministic name. -/
theorem buildPod_shape_witness :
    (buildPodSpec "my-app" "cm" "img" "pvc" "sec" "/tmp/my-app").pname =
      "my-app" ++ "-docker-build-pod" :=
  (buildPod_shape "my-app" "cm" "img" "pvc" "sec" "/tmp/my-app").1
